import Mathlib

/-!
Verification development for the inventory-optimization backend
(`src/backend/main.py`).

The two core functions are embedded shallowly:

* `forecast_demand` (main.py, lines 93-127): input validation, dispatch on
  the model-type string, and the clip-negatives-then-round post-processing of
  the projected values.  The actual statsmodels fits (`ARIMA(...).fit()`,
  `ExponentialSmoothing(...).fit()`) are external library calls; they enter
  the embedding as oracle arguments describing the outcome of the fit
  (a list of projected values, or the exception the fit raised).

* `calculate_inventory_optimization` (main.py, lines 130-232): the variance
  fallback ladder, safety stock, demand during lead time, reorder point,
  annual demand, EOQ, current inventory and the suggestion policy.
  `scipy.stats.norm.ppf` is an external library call and enters the
  embedding as a function argument `zppf : ℝ → ℝ`.

Numeric values are modelled over `ℝ`; Python's `math.ceil` is `Int.ceil`,
Python's `int()` is truncation toward zero, and the numpy/pandas `round`
(round half to even) is `npRound` below.
-/

namespace InventoryBackend

/-- Python `int(x)` on a float: truncation toward zero. -/
noncomputable def pyInt (x : ℝ) : ℤ :=
  if 0 ≤ x then ⌊x⌋ else ⌈x⌉

/-- numpy / pandas rounding (`Series.round`): round half to even.
For a value exactly halfway between two integers the even neighbour is
chosen (`2 * round (x / 2)`); otherwise it is ordinary round-to-nearest. -/
noncomputable def npRound (x : ℝ) : ℤ :=
  if Int.fract x = 1 / 2 then 2 * round (x / 2) else round x

/-- `ROLLING_WINDOW_DAYS = 90` (main.py, line 25). -/
def ROLLING_WINDOW_DAYS : ℕ := 90

/-- Arithmetic mean of a list, `sum(xs) / len(xs)` (division by zero gives 0,
matching Lean's convention; the callers below guard the length). -/
noncomputable def listMean (xs : List ℝ) : ℝ :=
  xs.sum / (xs.length : ℝ)

/-- pandas sample variance (`ddof = 1`): `Σ (x - mean)² / (n - 1)`. -/
noncomputable def sampleVar (xs : List ℝ) : ℝ :=
  ((xs.map fun x => (x - listMean xs) ^ 2).sum) / ((xs.length : ℝ) - 1)

/-- pandas sample standard deviation (`Series.std()`), the square root of the
sample variance. -/
noncomputable def sampleStd (xs : List ℝ) : ℝ :=
  Real.sqrt (sampleVar xs)

/-- The three demand-variability estimation methods of main.py, lines 143-152.
`rolling` is the code's string `"90-Day Rolling Std Dev"`, `overall` is
`"Overall Std Dev (Insufficient Rolling Data)"`, and `insufficientData` is
`"N/A (Insufficient Data)"`. -/
inductive VariabilityMethod
  | rolling
  | overall
  | insufficientData
deriving DecidableEq

/-- A standard-deviation estimate together with the method that produced it. -/
structure VarianceEstimate where
  std : ℝ
  method : VariabilityMethod

/-- The variance fallback ladder of main.py, lines 143-152: a trailing
90-day-window sample standard deviation when at least 90 daily observations
exist, the overall sample standard deviation when at least 2 exist, and 0
otherwise.  `daily_sales.rolling(window=90).std().iloc[-1]` is the sample
standard deviation of the last 90 values, i.e. of
`history.drop (history.length - 90)`.  The `pd.isna` guard of line 154 is a
no-op here: over `ℝ` the sample standard deviation is always defined. -/
noncomputable def estimateVariability (history : List ℝ) : VarianceEstimate :=
  if ROLLING_WINDOW_DAYS ≤ history.length then
    ⟨sampleStd (history.drop (history.length - ROLLING_WINDOW_DAYS)), .rolling⟩
  else if 2 ≤ history.length then
    ⟨sampleStd history, .overall⟩
  else
    ⟨0, .insufficientData⟩

/-- Safety stock (main.py, lines 159-160):
`safety_stock = z_score * sqrt(lead_time_days) * std_dev_demand`, then
`math.ceil(safety_stock) if safety_stock > 0 else 0`. -/
noncomputable def safetyStock (zScore : ℝ) (leadTimeDays : ℕ) (stdDev : ℝ) : ℤ :=
  let raw := zScore * Real.sqrt (leadTimeDays : ℝ) * stdDev
  if 0 < raw then ⌈raw⌉ else 0

/-- Demand during lead time (main.py, lines 162-166):
the ceiling of the sum of the first `min (len forecast) leadTimeDays`
forecast values. -/
noncomputable def ddlt (forecastValues : List ℝ) (leadTimeDays : ℕ) : ℤ :=
  ⌈(forecastValues.take (min forecastValues.length leadTimeDays)).sum⌉

/-- Annual demand (main.py, lines 170-178): the average forecast value times
365 when the forecast is non-empty, otherwise 0. -/
noncomputable def annualDemand (forecastValues : List ℝ) : ℝ :=
  if 0 < forecastValues.length then
    (forecastValues.sum / (forecastValues.length : ℝ)) * 365
  else 0

/-- EOQ (main.py, lines 180-184):
0 when `annual_demand <= 0 or holding <= 0 or ordering < 0`, otherwise
`math.ceil(sqrt((2 * annual_demand * ordering) / holding))`. -/
noncomputable def eoq (annual holding ordering : ℝ) : ℤ :=
  if annual ≤ 0 ∨ holding ≤ 0 ∨ ordering < 0 then 0
  else ⌈Real.sqrt ((2 * annual * ordering) / holding)⌉

/-- Current inventory (main.py, lines 187-197): the latest recorded
`Inventory Level`, converted with Python `int()`; 0 when the value is
missing (`pd.isna`) or there is no row at all.  A missing value is modelled
as `none`. -/
noncomputable def currentInventoryOf (latestInventory : Option ℝ) : ℤ :=
  match latestInventory with
  | none => 0
  | some v => pyInt v

/-- The four possible suggestion outcomes of main.py, lines 199-208.
`order q` is the message `"Order q units (...)"`, `reviewParameters` is
`"Maintain current stock (Consider reviewing EOQ parameters)."`,
`overstock` is `"Potential overstock (...)"`, and `maintain` is
`"Maintain current stock."`. -/
inductive Suggestion
  | order (qty : ℤ)
  | reviewParameters
  | overstock
  | maintain
deriving DecidableEq

/-- The suggestion policy of main.py, lines 199-208.  All four inputs are
integers in the source at this point, so the `math.ceil` on `order_qty` is
the identity and is omitted. -/
def suggestionFor (currentInventory reorderPoint eoqVal safetyStockVal : ℤ) :
    Suggestion :=
  if currentInventory ≤ reorderPoint then
    let orderQty := if 0 < eoqVal then eoqVal
                    else reorderPoint + safetyStockVal - currentInventory
    let orderQty := max 0 orderQty
    if 0 < orderQty then .order orderQty else .reviewParameters
  else if reorderPoint + (if 0 < eoqVal then eoqVal else safetyStockVal) <
      currentInventory then
    .overstock
  else
    .maintain

/-- The policy record returned by `calculate_inventory_optimization`
(main.py, lines 210-226), restricted to its numeric and suggestion fields. -/
structure InventoryPolicy where
  currentInventory : ℤ
  safetyStock : ℤ
  reorderPoint : ℤ
  economicOrderQuantity : ℤ
  demandDuringLeadTime : ℤ
  suggestion : Suggestion
  variabilityMethod : VariabilityMethod

/-- `calculate_inventory_optimization` (main.py, lines 130-232).
`zppf` models `scipy.stats.norm.ppf` (the inverse standard-normal CDF, an
external library function), `history` the per-product daily `Units Sold`
series, and `latestInventory` the `Inventory Level` of the most recent row
(`none` when the row is missing or the value is NaN). -/
noncomputable def calculate_inventory_optimization
    (zppf : ℝ → ℝ)
    (history : List ℝ)
    (latestInventory : Option ℝ)
    (forecastValues : List ℝ)
    (leadTimeDays : ℕ)
    (serviceLevel : ℝ)
    (holdingCostPerUnitPerYear : ℝ)
    (orderingCostPerOrder : ℝ) : InventoryPolicy :=
  let est := estimateVariability history
  let zScore := zppf serviceLevel
  let ss := safetyStock zScore leadTimeDays est.std
  let d := ddlt forecastValues leadTimeDays
  let reorderPoint := d + ss
  let annual := annualDemand forecastValues
  let q := eoq annual holdingCostPerUnitPerYear orderingCostPerOrder
  let ci := currentInventoryOf latestInventory
  { currentInventory := ci
    safetyStock := ss
    reorderPoint := reorderPoint
    economicOrderQuantity := q
    demandDuringLeadTime := d
    suggestion := suggestionFor ci reorderPoint q ss
    variabilityMethod := est.method }

/-- The error kinds `forecast_demand` can surface, tagging each
`HTTPException` site of main.py, lines 93-127. -/
inductive ErrorKind
  | insufficientData
  | invalidParameter
  | invalidModelType
  | expSmoothingValueError
  | internalForecast
deriving DecidableEq

/-- An `HTTPException` with its status code and the raise site. -/
structure HttpError where
  status : ℕ
  kind : ErrorKind
deriving DecidableEq

/-- Errors arising inside the `try:` block of `forecast_demand`
(main.py, lines 104-123): either an `HTTPException` raised by the code
itself, or some other exception (`exn`) escaping a library call. -/
inductive BodyError
  | httpError (status : ℕ) (kind : ErrorKind)
  | exn
deriving DecidableEq

/-- Outcome of the external `ExponentialSmoothing(...).fit().forecast(...)`
call: a list of projected values, a `ValueError` (handled specially at
main.py line 115), or any other exception. -/
inductive ESOutcome
  | ok (vals : List ℝ)
  | valueError
  | otherError

/-- `min_data_points` (main.py, line 94):
`max(10, 2 * seasonal_periods if model_type == "ExponentialSmoothing" else 10)`. -/
def minDataPoints (modelType : String) (seasonalPeriods : ℤ) : ℤ :=
  max 10 (if modelType = "ExponentialSmoothing" then 2 * seasonalPeriods else 10)

/-- The body of the `try:` block of `forecast_demand` (main.py, lines
104-119) up to the clipping/rounding: dispatch on the model-type string.
`arimaFit` and `esFit` are the outcomes of the external statsmodels calls.
An unknown model type raises `HTTPException(400, "Invalid model type ...")`;
a `ValueError` from the Exponential Smoothing fit raises
`HTTPException(400, "Could not fit Exponential Smoothing model ...")`
(main.py, line 117) — still from inside the outer `try:` block. -/
def fitBody (modelType : String) (arimaFit : Except Unit (List ℝ))
    (esFit : ESOutcome) : Except BodyError (List ℝ) :=
  if modelType = "ARIMA" then
    match arimaFit with
    | .ok f => .ok f
    | .error _ => .error .exn
  else if modelType = "ExponentialSmoothing" then
    match esFit with
    | .ok f => .ok f
    | .valueError => .error (.httpError 400 .expSmoothingValueError)
    | .otherError => .error .exn
  else
    .error (.httpError 400 .invalidModelType)

/-- `forecast_demand` (main.py, lines 93-127).  The validation order is that
of the source: the minimum-data check (lines 94-96) comes first, then the
`forecast_days <= 0` check (lines 98-99).  The trailing
`except Exception as e:` clause (lines 125-127) catches every error raised
inside the `try:` block — including the `HTTPException`s raised there — and
re-raises `HTTPException(500, ...)`.  On success the projected values are
clipped at 0 (`forecast[forecast < 0] = 0`) and rounded
(`forecast.round().tolist()`). -/
noncomputable def forecast_demand (ts : List ℝ) (modelType : String)
    (forecastDays seasonalPeriods : ℤ)
    (arimaFit : Except Unit (List ℝ)) (esFit : ESOutcome) :
    Except HttpError (List ℤ) :=
  if (ts.length : ℤ) < minDataPoints modelType seasonalPeriods then
    .error ⟨400, .insufficientData⟩
  else if forecastDays ≤ 0 then
    .error ⟨400, .invalidParameter⟩
  else
    match fitBody modelType arimaFit esFit with
    | .ok f => .ok (f.map fun x => npRound (max 0 x))
    | .error _ => .error ⟨500, .internalForecast⟩

/-! ### Helper lemmas -/

/-- Rounding a non-negative real (numpy half-to-even) is non-negative. -/
theorem npRound_nonneg {x : ℝ} (hx : 0 ≤ x) : 0 ≤ npRound x := by
  unfold npRound
  split
  · have h2 : (0 : ℤ) ≤ round (x / 2) := by
      rw [round_eq]
      exact Int.floor_nonneg.mpr (by linarith)
    exact mul_nonneg (by norm_num) h2
  · rw [round_eq]
    exact Int.floor_nonneg.mpr (by linarith)

/-- The computed safety stock is never negative. -/
theorem safetyStock_nonneg (z : ℝ) (L : ℕ) (σ : ℝ) : 0 ≤ safetyStock z L σ := by
  simp only [safetyStock]
  split
  · next h => exact Int.ceil_nonneg h.le
  · exact le_refl 0

/-- Safety stock is monotone in the z-score for a non-negative standard
deviation. -/
theorem safetyStock_mono {z₁ z₂ : ℝ} (L : ℕ) {σ : ℝ} (hσ : 0 ≤ σ)
    (hz : z₁ ≤ z₂) : safetyStock z₁ L σ ≤ safetyStock z₂ L σ := by
  have hraw : z₁ * Real.sqrt (L : ℝ) * σ ≤ z₂ * Real.sqrt (L : ℝ) * σ :=
    mul_le_mul_of_nonneg_right
      (mul_le_mul_of_nonneg_right hz (Real.sqrt_nonneg _)) hσ
  simp only [safetyStock]
  by_cases h1 : 0 < z₁ * Real.sqrt (L : ℝ) * σ
  · rw [if_pos h1, if_pos (lt_of_lt_of_le h1 hraw)]
    exact Int.ceil_mono hraw
  · rw [if_neg h1]
    by_cases h2 : 0 < z₂ * Real.sqrt (L : ℝ) * σ
    · rw [if_pos h2]
      exact Int.ceil_nonneg h2.le
    · rw [if_neg h2]

/-- Demand during lead time is non-negative for non-negative forecasts. -/
theorem ddlt_nonneg {f : List ℝ} (hf : ∀ v ∈ f, 0 ≤ v) (L : ℕ) :
    0 ≤ ddlt f L := by
  unfold ddlt
  exact Int.ceil_nonneg
    (List.sum_nonneg fun x hx => hf x (List.mem_of_mem_take hx))

/-- EOQ is never negative. -/
theorem eoq_nonneg (a h K : ℝ) : 0 ≤ eoq a h K := by
  unfold eoq
  split
  · exact le_refl 0
  · exact Int.ceil_nonneg (Real.sqrt_nonneg _)

/-- Every branch of the variance fallback ladder yields a non-negative
standard deviation. -/
theorem estimateVariability_std_nonneg (history : List ℝ) :
    0 ≤ (estimateVariability history).std := by
  unfold estimateVariability
  split
  · exact Real.sqrt_nonneg _
  · split
    · exact Real.sqrt_nonneg _
    · exact le_refl 0

/-! ### Claim C2 -/

/-- Claim C2 counterexample: the source applies the minimum-data check
(main.py line 95) before the horizon check (line 98), so a 5-point series
with `forecast_days = 0` fails with `InsufficientData`, not the
`InvalidParameter` the claim requires. -/
theorem claim_C2_counterexample :
    forecast_demand (List.replicate 5 (0 : ℝ)) "ARIMA" 0 7 (.ok []) .otherError =
        .error ⟨400, .insufficientData⟩ ∧
      (Except.error ⟨400, .insufficientData⟩ : Except HttpError (List ℤ)) ≠
        .error ⟨400, .invalidParameter⟩ := by
  constructor
  · unfold forecast_demand
    rw [if_pos (by decide)]
  · simp

/-- Claim C2 (amended): for every series that meets the minimum-data
threshold of the chosen variant, calling `forecast_demand` with
`forecast_days ≤ 0` fails with `InvalidParameter`; the minimum-data check is
applied first, so a too-short series yields `InsufficientData` even when the
horizon is non-positive. -/
theorem claim_C2_theorem (ts : List ℝ) (modelType : String)
    (forecastDays seasonalPeriods : ℤ)
    (arimaFit : Except Unit (List ℝ)) (esFit : ESOutcome)
    (hlen : minDataPoints modelType seasonalPeriods ≤ (ts.length : ℤ))
    (hdays : forecastDays ≤ 0) :
    forecast_demand ts modelType forecastDays seasonalPeriods arimaFit esFit =
      .error ⟨400, .invalidParameter⟩ := by
  unfold forecast_demand
  rw [if_neg (not_lt.mpr hlen), if_pos hdays]

/-- Witness for claim C2: a 10-point series with `forecast_days = 0`. -/
theorem claim_C2_witness :
    minDataPoints "ARIMA" 7 ≤ ((List.replicate 10 (0 : ℝ)).length : ℤ) ∧
      forecast_demand (List.replicate 10 (0 : ℝ)) "ARIMA" 0 7 (.ok [])
          .otherError =
        .error ⟨400, .invalidParameter⟩ :=
  ⟨by decide, claim_C2_theorem _ _ _ _ _ _ (by decide) (by decide)⟩

/-! ### Claim C10 -/

/-- Claim C10 counterexample: with an unknown model type but a non-positive
horizon, `forecast_demand` fails with the 400-level `InvalidParameter`
raised before the fitting `try:` block is entered — not with the claimed
`InternalError` (HTTP 500). -/
theorem claim_C10_counterexample :
    forecast_demand (List.replicate 10 (0 : ℝ)) "LSTM" 0 7 (.ok [])
        .otherError =
      .error ⟨400, .invalidParameter⟩ ∧
    (Except.error ⟨400, .invalidParameter⟩ : Except HttpError (List ℤ)) ≠
      .error ⟨500, .internalForecast⟩ := by
  constructor
  · unfold forecast_demand
    rw [if_neg (by decide), if_pos (by decide)]
  · simp

/-- Claim C10 (amended): for every series meeting the 10-point minimum and
every positive horizon, an unknown model-type string makes `forecast_demand`
fail with `InternalError` (HTTP 500), never `InvalidParameter`: the
`HTTPException(400, "Invalid model type ...")` raised inside the fitting
`try:` block is caught by the function's own `except Exception` handler and
re-raised as a 500. -/
theorem claim_C10_theorem (ts : List ℝ) (modelType : String)
    (forecastDays seasonalPeriods : ℤ)
    (arimaFit : Except Unit (List ℝ)) (esFit : ESOutcome)
    (hm1 : modelType ≠ "ARIMA") (hm2 : modelType ≠ "ExponentialSmoothing")
    (hlen : minDataPoints modelType seasonalPeriods ≤ (ts.length : ℤ))
    (hdays : 0 < forecastDays) :
    forecast_demand ts modelType forecastDays seasonalPeriods arimaFit esFit =
      .error ⟨500, .internalForecast⟩ := by
  unfold forecast_demand
  rw [if_neg (not_lt.mpr hlen), if_neg (not_le.mpr hdays)]
  unfold fitBody
  rw [if_neg hm1, if_neg hm2]

/-- Witness for claim C10: model type `"LSTM"` on a 10-point series with a
30-day horizon. -/
theorem claim_C10_witness :
    ("LSTM" ≠ "ARIMA") ∧
      forecast_demand (List.replicate 10 (0 : ℝ)) "LSTM" 30 7 (.ok [])
          .otherError =
        .error ⟨500, .internalForecast⟩ :=
  ⟨by decide,
    claim_C10_theorem _ _ _ _ _ _ (by decide) (by decide) (by decide)
      (by decide)⟩

/-! ### Claim C6 -/

/-- Claim C6: for every forecast list and every positive lead time, the
demand during lead time is the ceiling of the sum of the first
`min (len forecast) leadTimeDays` forecast values, i.e. of the first
`leadTimeDays` values; when the forecast is shorter than the lead time only
the available values are summed (the whole list), with no extrapolation. -/
theorem claim_C6_theorem (f : List ℝ) (L : ℕ) (hL : 0 < L) :
    ddlt f L = ⌈(f.take L).sum⌉ ∧ (f.length ≤ L → ddlt f L = ⌈f.sum⌉) := by
  have htake : f.take (min f.length L) = f.take L := by
    rcases le_total f.length L with h | h
    · rw [min_eq_left h, List.take_length, List.take_of_length_le h]
    · rw [min_eq_right h]
  constructor
  · unfold ddlt
    rw [htake]
  · intro h
    unfold ddlt
    rw [min_eq_left h, List.take_length]

/-- Witness for claim C6: a 2-value forecast with a 7-day lead time. -/
theorem claim_C6_witness :
    (0 < 7) ∧
      (ddlt [(1 : ℝ), 2] 7 = ⌈(([(1 : ℝ), 2]).take 7).sum⌉ ∧
        ([(1 : ℝ), 2].length ≤ 7 → ddlt [(1 : ℝ), 2] 7 = ⌈([(1 : ℝ), 2]).sum⌉)) :=
  ⟨by decide, claim_C6_theorem _ _ (by decide)⟩

/-! ### Claim C5 -/

/-- Claim C5: for every call to `calculate_inventory_optimization`, the EOQ
equals `ceil (sqrt (2 * annualDemand * orderingCost / holdingCost))` when
`annualDemand > 0`, `holdingCost > 0` and `orderingCost ≥ 0`, and 0
otherwise — in particular whenever the annual demand is 0, the holding cost
is 0, or the ordering cost is negative. -/
theorem claim_C5_theorem (zppf : ℝ → ℝ) (history : List ℝ) (inv : Option ℝ)
    (forecast : List ℝ) (L : ℕ) (sl holding ordering : ℝ) :
    (calculate_inventory_optimization zppf history inv forecast L sl holding
        ordering).economicOrderQuantity =
      if 0 < annualDemand forecast ∧ 0 < holding ∧ 0 ≤ ordering then
        ⌈Real.sqrt ((2 * annualDemand forecast * ordering) / holding)⌉
      else 0 := by
  show eoq (annualDemand forecast) holding ordering = _
  unfold eoq
  by_cases hc : 0 < annualDemand forecast ∧ 0 < holding ∧ 0 ≤ ordering
  · have hnot : ¬(annualDemand forecast ≤ 0 ∨ holding ≤ 0 ∨ ordering < 0) := by
      push_neg
      exact ⟨hc.1, hc.2.1, hc.2.2⟩
    rw [if_pos hc, if_neg hnot]
  · have hyes : annualDemand forecast ≤ 0 ∨ holding ≤ 0 ∨ ordering < 0 := by
      by_contra hno
      push_neg at hno
      exact hc ⟨hno.1, hno.2.1, hno.2.2⟩
    rw [if_neg hc, if_pos hyes]

/-! ### Concrete-evaluation helpers -/

/-- `npRound 0 = 0`. -/
theorem npRound_zero : npRound 0 = 0 := by
  unfold npRound
  rw [if_neg (by rw [Int.fract_zero]; norm_num), round_zero]

/-- Ceiling of a square root pinned between consecutive squares. -/
theorem ceil_sqrt_eq {x : ℝ} (n : ℕ) (h1 : ((n : ℝ) - 1) ^ 2 < x)
    (h2 : x ≤ (n : ℝ) ^ 2) : ⌈Real.sqrt x⌉ = n := by
  rw [Int.ceil_eq_iff]
  refine ⟨?_, ?_⟩
  · push_cast
    exact Real.lt_sqrt_of_sq_lt h1
  · push_cast
    calc Real.sqrt x ≤ Real.sqrt ((n : ℝ) ^ 2) := Real.sqrt_le_sqrt h2
      _ = n := Real.sqrt_sq (by positivity)

/-- `minDataPoints` for the autoregressive variant is always 10. -/
theorem minDataPoints_ARIMA (sp : ℤ) : minDataPoints "ARIMA" sp = 10 := by
  unfold minDataPoints
  rw [if_neg (by decide)]
  norm_num

/-- The variance estimate for the two-point history `[0, 2]`: the overall
sample standard deviation, `sqrt 2`. -/
theorem sc1_est : estimateVariability [(0 : ℝ), 2] = ⟨Real.sqrt 2, .overall⟩ := by
  unfold estimateVariability
  rw [if_neg (by decide), if_pos (by decide)]
  congr 1
  unfold sampleStd
  congr 1
  unfold sampleVar listMean
  norm_num

/-- Safety stock for z-score 1, one lead-time day and standard deviation
`sqrt 2` is `ceil (sqrt 2) = 2`. -/
theorem sc1_ss : safetyStock 1 1 (Real.sqrt 2) = 2 := by
  simp only [safetyStock, Nat.cast_one, Real.sqrt_one, one_mul]
  rw [if_pos (Real.sqrt_pos.mpr (by norm_num))]
  exact ceil_sqrt_eq 2 (by norm_num) (by norm_num)

/-- DDLT of the one-day forecast `[1]` over a one-day lead time. -/
theorem sc1_ddlt : ddlt [(1 : ℝ)] 1 = 1 := by
  unfold ddlt
  simp

/-- Annualised demand of the one-day forecast `[1]`. -/
theorem sc1_annual : annualDemand [(1 : ℝ)] = 365 := by
  unfold annualDemand
  rw [if_pos (by simp)]
  norm_num

/-- EOQ for annual demand 365, holding cost 1 and ordering cost `1/730`:
`ceil (sqrt 1) = 1`. -/
theorem sc1_eoq : eoq 365 1 (1 / 730) = 1 := by
  unfold eoq
  rw [if_neg (by norm_num)]
  have h : (2 * (365 : ℝ) * (1 / 730)) / 1 = 1 := by norm_num
  rw [h, Real.sqrt_one, Int.ceil_one]

/-- Current inventory 5 from an inventory level of 5.0. -/
theorem sc1_ci : currentInventoryOf (some (5 : ℝ)) = 5 := by
  show pyInt 5 = 5
  unfold pyInt
  rw [if_pos (by norm_num)]
  simp

/-- The full policy for the first concrete scenario: history `[0, 2]`,
inventory 5, forecast `[1]`, one lead-time day, z-score 1, holding cost 1,
ordering cost `1/730`.  Safety stock 2 exceeds EOQ 1, and the on-hand
inventory 5 lies strictly between `reorderPoint + EOQ = 4` and
`reorderPoint + max EOQ safetyStock = 5`. -/
theorem sc1_policy :
    calculate_inventory_optimization (fun _ => 1) [(0 : ℝ), 2] (some 5)
        [(1 : ℝ)] 1 (95 / 100) 1 (1 / 730) =
      ⟨5, 2, 3, 1, 1, .overstock, .overall⟩ := by
  simp only [calculate_inventory_optimization, sc1_est]
  rw [sc1_ss, sc1_ddlt, sc1_annual, sc1_eoq, sc1_ci]
  norm_num [suggestionFor]

/-! ### Claim C1 -/

/-- The `elif` branch of main.py line 207: when the current inventory
exceeds the reorder point, the overstock warning fires exactly when the
current inventory exceeds `reorderPoint + (EOQ if EOQ > 0 else safetyStock)`. -/
theorem suggestionFor_overstock_iff {ci rop q ss : ℤ} (h : rop < ci) :
    suggestionFor ci rop q ss = .overstock ↔
      rop + (if 0 < q then q else ss) < ci := by
  unfold suggestionFor
  rw [if_neg (not_le.mpr h)]
  by_cases h2 : rop + (if 0 < q then q else ss) < ci
  · rw [if_pos h2]
    simp [h2]
  · rw [if_neg h2]
    simp [h2]

/-- Claim C1 counterexample: a reachable policy with
`0 < EOQ = 1 < safetyStock = 2`, reorder point 3 and current inventory 5.
The source emits the overstock warning (its threshold is
`reorderPoint + EOQ = 4 < 5`), although the current inventory does not
exceed the claim's threshold `reorderPoint + max EOQ safetyStock = 5`. -/
theorem claim_C1_counterexample :
    (calculate_inventory_optimization (fun _ => 1) [(0 : ℝ), 2] (some 5)
        [(1 : ℝ)] 1 (95 / 100) 1 (1 / 730)).reorderPoint <
      (calculate_inventory_optimization (fun _ => 1) [(0 : ℝ), 2] (some 5)
        [(1 : ℝ)] 1 (95 / 100) 1 (1 / 730)).currentInventory ∧
    (calculate_inventory_optimization (fun _ => 1) [(0 : ℝ), 2] (some 5)
        [(1 : ℝ)] 1 (95 / 100) 1 (1 / 730)).suggestion = .overstock ∧
    ¬((calculate_inventory_optimization (fun _ => 1) [(0 : ℝ), 2] (some 5)
          [(1 : ℝ)] 1 (95 / 100) 1 (1 / 730)).reorderPoint +
        max (calculate_inventory_optimization (fun _ => 1) [(0 : ℝ), 2]
            (some 5) [(1 : ℝ)] 1 (95 / 100) 1 (1 / 730)).economicOrderQuantity
          (calculate_inventory_optimization (fun _ => 1) [(0 : ℝ), 2] (some 5)
            [(1 : ℝ)] 1 (95 / 100) 1 (1 / 730)).safetyStock <
      (calculate_inventory_optimization (fun _ => 1) [(0 : ℝ), 2] (some 5)
        [(1 : ℝ)] 1 (95 / 100) 1 (1 / 730)).currentInventory) := by
  rw [sc1_policy]
  refine ⟨by norm_num, rfl, by norm_num⟩

/-- Claim C1 (amended): whenever `currentInventory > reorderPoint`, the
overstock warning is emitted if and only if
`currentInventory > reorderPoint + (EOQ if EOQ > 0 else safetyStock)`.
This threshold equals `reorderPoint + max(EOQ, safetyStock)` except when
`0 < EOQ < safetyStock`, where the source uses `reorderPoint + EOQ`. -/
theorem claim_C1_theorem (zppf : ℝ → ℝ) (history : List ℝ) (inv : Option ℝ)
    (forecast : List ℝ) (L : ℕ) (sl holding ordering : ℝ)
    (hgt : (calculate_inventory_optimization zppf history inv forecast L sl
          holding ordering).reorderPoint <
        (calculate_inventory_optimization zppf history inv forecast L sl
          holding ordering).currentInventory) :
    (calculate_inventory_optimization zppf history inv forecast L sl holding
        ordering).suggestion = .overstock ↔
      (calculate_inventory_optimization zppf history inv forecast L sl holding
          ordering).reorderPoint +
        (if 0 < (calculate_inventory_optimization zppf history inv forecast L
              sl holding ordering).economicOrderQuantity then
          (calculate_inventory_optimization zppf history inv forecast L sl
            holding ordering).economicOrderQuantity
        else
          (calculate_inventory_optimization zppf history inv forecast L sl
            holding ordering).safetyStock) <
      (calculate_inventory_optimization zppf history inv forecast L sl holding
        ordering).currentInventory :=
  suggestionFor_overstock_iff hgt

/-- Witness for claim C1: the corrected threshold applied to the scenario of
the counterexample. -/
theorem claim_C1_witness :
    (calculate_inventory_optimization (fun _ => 1) [(0 : ℝ), 2] (some 5)
        [(1 : ℝ)] 1 (95 / 100) 1 (1 / 730)).reorderPoint <
      (calculate_inventory_optimization (fun _ => 1) [(0 : ℝ), 2] (some 5)
        [(1 : ℝ)] 1 (95 / 100) 1 (1 / 730)).currentInventory ∧
    ((calculate_inventory_optimization (fun _ => 1) [(0 : ℝ), 2] (some 5)
        [(1 : ℝ)] 1 (95 / 100) 1 (1 / 730)).suggestion = .overstock ↔
      (calculate_inventory_optimization (fun _ => 1) [(0 : ℝ), 2] (some 5)
          [(1 : ℝ)] 1 (95 / 100) 1 (1 / 730)).reorderPoint +
        (if 0 < (calculate_inventory_optimization (fun _ => 1) [(0 : ℝ), 2]
              (some 5) [(1 : ℝ)] 1 (95 / 100) 1
              (1 / 730)).economicOrderQuantity then
          (calculate_inventory_optimization (fun _ => 1) [(0 : ℝ), 2] (some 5)
            [(1 : ℝ)] 1 (95 / 100) 1 (1 / 730)).economicOrderQuantity
        else
          (calculate_inventory_optimization (fun _ => 1) [(0 : ℝ), 2] (some 5)
            [(1 : ℝ)] 1 (95 / 100) 1 (1 / 730)).safetyStock) <
      (calculate_inventory_optimization (fun _ => 1) [(0 : ℝ), 2] (some 5)
        [(1 : ℝ)] 1 (95 / 100) 1 (1 / 730)).currentInventory) := by
  have h : (calculate_inventory_optimization (fun _ => 1) [(0 : ℝ), 2] (some 5)
      [(1 : ℝ)] 1 (95 / 100) 1 (1 / 730)).reorderPoint <
    (calculate_inventory_optimization (fun _ => 1) [(0 : ℝ), 2] (some 5)
      [(1 : ℝ)] 1 (95 / 100) 1 (1 / 730)).currentInventory := by
    rw [sc1_policy]
    norm_num
  exact ⟨h, claim_C1_theorem _ _ _ _ _ _ _ _ h⟩

/-! ### Claim C3 -/

/-- The EOQ of the spec's constant-demand scenario:
`ceil (sqrt (2 * 3650 * 50 / 1.5)) = ceil (sqrt (730000 / 3)) = 494`,
since `493² = 243049 < 730000 / 3 ≤ 244036 = 494²`. -/
theorem eoq_constant_demand_scenario : eoq 3650 (3 / 2) 50 = 494 := by
  unfold eoq
  rw [if_neg (by norm_num)]
  have h : (2 * (3650 : ℝ) * 50) / (3 / 2) = 730000 / 3 := by norm_num
  rw [h]
  exact ceil_sqrt_eq 494 (by norm_num) (by norm_num)

/-- A 30-day constant forecast of 10 units per day annualises to 3650. -/
theorem annualDemand_constant_30_10 :
    annualDemand (List.replicate 30 (10 : ℝ)) = 3650 := by
  unfold annualDemand
  rw [if_pos (by simp)]
  rw [List.sum_replicate, List.length_replicate]
  norm_num

/-- Claim C3 counterexample: in the constant-demand scenario
(`annualDemand = 3650`, ordering cost 50, holding cost 1.5) the computed
EOQ is not 493: `sqrt (2 * 3650 * 50 / 1.5) ≈ 493.29`, whose ceiling is
494. -/
theorem claim_C3_counterexample :
    (calculate_inventory_optimization (fun _ => 164 / 100)
        (List.replicate 100 (10 : ℝ)) (some 0) (List.replicate 30 (10 : ℝ)) 7
        (95 / 100) (3 / 2) 50).economicOrderQuantity ≠ 493 := by
  show eoq (annualDemand (List.replicate 30 (10 : ℝ))) (3 / 2) 50 ≠ 493
  rw [annualDemand_constant_30_10, eoq_constant_demand_scenario]
  decide

/-- Claim C3 (amended): in the constant-demand scenario with
`annualDemand = 3650`, ordering cost 50 and holding cost 1.5, the computed
EOQ equals `ceil (sqrt (2 * 3650 * 50 / 1.5)) = 494`. -/
theorem claim_C3_theorem :
    (calculate_inventory_optimization (fun _ => 164 / 100)
        (List.replicate 100 (10 : ℝ)) (some 0) (List.replicate 30 (10 : ℝ)) 7
        (95 / 100) (3 / 2) 50).economicOrderQuantity = 494 := by
  show eoq (annualDemand (List.replicate 30 (10 : ℝ))) (3 / 2) 50 = 494
  rw [annualDemand_constant_30_10]
  exact eoq_constant_demand_scenario

/-! ### Claim C4 -/

/-- Claim C4: for every policy computed from a non-negative forecast and a
non-negative recorded inventory level (the provider's contract), the reorder
point equals DDLT plus safety stock, and current inventory, safety stock,
reorder point, EOQ and DDLT are all non-negative integers. -/
theorem claim_C4_theorem (zppf : ℝ → ℝ) (history : List ℝ) (inv : Option ℝ)
    (forecast : List ℝ) (L : ℕ) (sl holding ordering : ℝ)
    (hf : ∀ v ∈ forecast, (0 : ℝ) ≤ v)
    (hinv : ∀ v : ℝ, inv = some v → 0 ≤ v) :
    (calculate_inventory_optimization zppf history inv forecast L sl holding
        ordering).reorderPoint =
      (calculate_inventory_optimization zppf history inv forecast L sl holding
          ordering).demandDuringLeadTime +
        (calculate_inventory_optimization zppf history inv forecast L sl
          holding ordering).safetyStock ∧
    0 ≤ (calculate_inventory_optimization zppf history inv forecast L sl
        holding ordering).currentInventory ∧
    0 ≤ (calculate_inventory_optimization zppf history inv forecast L sl
        holding ordering).safetyStock ∧
    0 ≤ (calculate_inventory_optimization zppf history inv forecast L sl
        holding ordering).reorderPoint ∧
    0 ≤ (calculate_inventory_optimization zppf history inv forecast L sl
        holding ordering).economicOrderQuantity ∧
    0 ≤ (calculate_inventory_optimization zppf history inv forecast L sl
        holding ordering).demandDuringLeadTime := by
  refine ⟨rfl, ?_, safetyStock_nonneg _ _ _, ?_, eoq_nonneg _ _ _,
    ddlt_nonneg hf L⟩
  · show 0 ≤ currentInventoryOf inv
    cases inv with
    | none => exact le_refl 0
    | some v =>
      show 0 ≤ pyInt v
      unfold pyInt
      rw [if_pos (hinv v rfl)]
      exact Int.floor_nonneg.mpr (hinv v rfl)
  · show 0 ≤ ddlt forecast L +
      safetyStock (zppf sl) L (estimateVariability history).std
    exact add_nonneg (ddlt_nonneg hf L) (safetyStock_nonneg _ _ _)

/-- Witness for claim C4: the empty history, empty forecast and missing
inventory level. -/
theorem claim_C4_witness :
    (∀ v ∈ ([] : List ℝ), (0 : ℝ) ≤ v) ∧
    ((calculate_inventory_optimization (fun _ => 1) [] none [] 7 0 0
          0).reorderPoint =
        (calculate_inventory_optimization (fun _ => 1) [] none [] 7 0 0
            0).demandDuringLeadTime +
          (calculate_inventory_optimization (fun _ => 1) [] none [] 7 0 0
            0).safetyStock ∧
      0 ≤ (calculate_inventory_optimization (fun _ => 1) [] none [] 7 0 0
          0).currentInventory ∧
      0 ≤ (calculate_inventory_optimization (fun _ => 1) [] none [] 7 0 0
          0).safetyStock ∧
      0 ≤ (calculate_inventory_optimization (fun _ => 1) [] none [] 7 0 0
          0).reorderPoint ∧
      0 ≤ (calculate_inventory_optimization (fun _ => 1) [] none [] 7 0 0
          0).economicOrderQuantity ∧
      0 ≤ (calculate_inventory_optimization (fun _ => 1) [] none [] 7 0 0
          0).demandDuringLeadTime) :=
  ⟨by simp,
    claim_C4_theorem _ _ _ _ _ _ _ _ (by simp) (fun v hv => by simp at hv)⟩

/-! ### Claim C7 -/

/-- Claim C7: for a fixed history (hence fixed, non-negative standard
deviation) and fixed lead time, the computed safety stock is non-decreasing
in the service level, for any monotone inverse-normal-CDF `zppf` (the true
`norm.ppf` is monotone on `[0, 1]`). -/
theorem claim_C7_theorem (zppf : ℝ → ℝ) (hz : Monotone zppf)
    (history : List ℝ) (inv : Option ℝ) (forecast : List ℝ) (L : ℕ)
    (holding ordering : ℝ) (sl₁ sl₂ : ℝ) (h0 : 0 ≤ sl₁) (h1 : sl₂ ≤ 1)
    (h12 : sl₁ ≤ sl₂) :
    (calculate_inventory_optimization zppf history inv forecast L sl₁ holding
        ordering).safetyStock ≤
      (calculate_inventory_optimization zppf history inv forecast L sl₂
        holding ordering).safetyStock := by
  show safetyStock (zppf sl₁) L (estimateVariability history).std ≤
    safetyStock (zppf sl₂) L (estimateVariability history).std
  exact safetyStock_mono L (estimateVariability_std_nonneg history) (hz h12)

/-- Witness for claim C7: the identity as a monotone z-score function and
service levels 0 and 1. -/
theorem claim_C7_witness :
    Monotone (id : ℝ → ℝ) ∧ (0 : ℝ) ≤ 1 ∧
      (calculate_inventory_optimization id [] none [] 7 0 1 1).safetyStock ≤
        (calculate_inventory_optimization id [] none [] 7 1 1 1).safetyStock :=
  ⟨monotone_id, by norm_num,
    claim_C7_theorem id monotone_id [] none [] 7 1 1 0 1 (le_refl 0)
      (le_refl 1) (by norm_num)⟩

/-! ### Claim C9 -/

/-- Claim C9: a history with fewer than 2 observations gets the variance
estimate 0 with the insufficient-data method tag, and the resulting safety
stock is 0 for every service level and every z-score function — the branch
`ceil(raw) if raw > 0 else 0` returns 0 whenever
`raw = z * sqrt(leadTime) * 0` is not positive, which also covers the
float NaN produced at the endpoints where `norm.ppf` is infinite. -/
theorem claim_C9_theorem (history : List ℝ) (hlen : history.length < 2) :
    estimateVariability history = ⟨0, .insufficientData⟩ ∧
      ∀ (zppf : ℝ → ℝ) (inv : Option ℝ) (forecast : List ℝ) (L : ℕ)
        (sl holding ordering : ℝ),
        (calculate_inventory_optimization zppf history inv forecast L sl
            holding ordering).safetyStock = 0 := by
  have hest : estimateVariability history = ⟨0, .insufficientData⟩ := by
    unfold estimateVariability ROLLING_WINDOW_DAYS
    rw [if_neg (by omega), if_neg (by omega)]
  refine ⟨hest, fun zppf inv forecast L sl holding ordering => ?_⟩
  show safetyStock (zppf sl) L (estimateVariability history).std = 0
  rw [hest]
  show safetyStock (zppf sl) L 0 = 0
  simp only [safetyStock]
  rw [mul_zero, if_neg (lt_irrefl (0 : ℝ))]

/-- Witness for claim C9: the one-point history `[3]`. -/
theorem claim_C9_witness :
    [(3 : ℝ)].length < 2 ∧
      estimateVariability [(3 : ℝ)] = ⟨0, .insufficientData⟩ ∧
      (calculate_inventory_optimization (fun _ => 1) [(3 : ℝ)] none [] 1 1 1
          1).safetyStock = 0 :=
  ⟨by decide, (claim_C9_theorem [(3 : ℝ)] (by decide)).1,
    (claim_C9_theorem [(3 : ℝ)] (by decide)).2 _ _ _ _ _ _ _⟩

/-! ### Claim C8 -/

/-- Claim C8: for every series of at least 10 observations and every
positive horizon, a successful autoregressive-model call to
`forecast_demand` returns exactly `horizon` values, each a non-negative
integer (negative projections are clipped to 0, then rounded).  The
external statsmodels contract that `forecast(steps = n)` returns `n` values
enters as the hypothesis on `arimaFit`. -/
theorem claim_C8_theorem (ts : List ℝ) (forecastDays seasonalPeriods : ℤ)
    (arimaFit : Except Unit (List ℝ)) (esFit : ESOutcome)
    (hlen : 10 ≤ (ts.length : ℤ)) (hdays : 0 < forecastDays)
    (hfit : ∀ raw, arimaFit = .ok raw → (raw.length : ℤ) = forecastDays)
    (out : List ℤ)
    (hout : forecast_demand ts "ARIMA" forecastDays seasonalPeriods arimaFit
        esFit = .ok out) :
    (out.length : ℤ) = forecastDays ∧ ∀ v ∈ out, 0 ≤ v := by
  unfold forecast_demand at hout
  rw [if_neg (by rw [minDataPoints_ARIMA]; exact not_lt.mpr hlen),
    if_neg (not_le.mpr hdays)] at hout
  unfold fitBody at hout
  rw [if_pos rfl] at hout
  cases arimaFit with
  | error e => simp at hout
  | ok raw =>
    simp only [Except.ok.injEq] at hout
    constructor
    · rw [← hout, List.length_map]
      exact hfit raw rfl
    · intro v hv
      rw [← hout] at hv
      obtain ⟨x, hx, hxv⟩ := List.mem_map.mp hv
      rw [← hxv]
      exact npRound_nonneg (le_max_left 0 x)

/-- Witness for claim C8: a 10-point series, a one-day horizon and an
external projection of a single value 0. -/
theorem claim_C8_witness :
    (10 ≤ ((List.replicate 10 (0 : ℝ)).length : ℤ)) ∧
      (([(0 : ℤ)].length : ℤ) = 1 ∧ ∀ v ∈ [(0 : ℤ)], 0 ≤ v) := by
  refine ⟨by decide,
    claim_C8_theorem (List.replicate 10 (0 : ℝ)) 1 7 (.ok [0]) .otherError
      (by decide) (by decide) (fun raw h => by cases h; decide) [0] ?_⟩
  unfold forecast_demand fitBody
  rw [if_neg (by decide), if_neg (by decide), if_pos rfl]
  simp [npRound_zero]

end InventoryBackend
